import Mathlib

/-!
Verification development for the client-side image style-transfer pipeline
(Next.js + onnxruntime-web).  The definitions below are a shallow embedding
of the pipeline code: the image preprocessor (`ImagePreprocessor` in
`src/utils/onnxModels.ts` / `imagePreprocessing.ts`), the inference
orchestrator, output decoder, fallback simulator and model-session cache
(`useStyleTransfer.ts`).

Modelling conventions:
- JS numbers are modelled as exact rationals (`ℚ`); `Math.round` becomes
  `jsRound` (floor of `q + 1/2`, which matches `Math.round` on all numbers,
  including negative halves which both round towards positive infinity).
- Pixel byte values are `ℤ` after clamping.
- Fallible code returns `Except String`; `throw` is `.error`.
- Canvas pixel resampling (`drawImage`) is external rendering and is not
  modelled; the embedding tracks the exact dimension/shape bookkeeping the
  code performs around it.
-/

deriving instance DecidableEq for Except

/-- JavaScript `Math.round`: round half towards positive infinity. -/
def jsRound (q : ℚ) : ℤ := ⌊q + 1/2⌋

/-- Rounding used when a JS number is stored into a `Uint8ClampedArray`
entry: round half to even (the HTML spec's behaviour). -/
def roundHalfEven (q : ℚ) : ℤ :=
  if q - ⌊q⌋ < 1/2 then ⌊q⌋
  else if q - ⌊q⌋ > 1/2 then ⌊q⌋ + 1
  else if 2 ∣ ⌊q⌋ then ⌊q⌋ else ⌊q⌋ + 1

/-- Storing a JS number into a `Uint8ClampedArray` slot: clamp to `[0,255]`
and round half to even. -/
def u8ClampedStore (q : ℚ) : ℤ := max 0 (min 255 (roundHalfEven q))

theorem jsRound_natCast (n : ℕ) : jsRound (n : ℚ) = n := by
  unfold jsRound
  rw [show ((n : ℚ) + 1/2) = ((n : ℤ) : ℚ) + 1/2 by push_cast; ring,
    Int.floor_int_add]
  norm_num

/-- The normalization tag recorded on a preprocessed image
(`normalizationType` in the source). -/
inductive NormalizationType where
  | imagenet
  | animegan
  | custom
  | noNorm      -- the source's `'none'` tag
  deriving DecidableEq, Repr

/-- One sample of `ImagePreprocessor.convertToRGBAndNormalize`
(src/utils/onnxModels.ts, lines 486-527): given the `normalize` flag, the
per-channel `mean`/`std` arrays, the channel index `c` and the raw byte
value `x` read from the canvas, produce the normalized float sample.  The
source selects the branch by testing `mean[0]`/`std[0]` only. -/
def convertSample (normalize : Bool) (mean std : Fin 3 → ℚ) (c : Fin 3) (x : ℚ) : ℚ :=
  if normalize then
    if mean 0 = 0.5 ∧ std 0 = 0.5 then
      -- AnimeGAN normalization: convert to -1~1 range
      (x / 255) * 2 - 1
    else if mean 0 = 0.485 ∧ std 0 = 0.229 then
      -- Standard ImageNet normalization: (x - mean) / std
      (x / 255 - mean c) / std c
    else
      -- Custom normalization
      (x / 255 - mean c) / std c
  else
    -- Just normalize to [0, 1]
    x / 255

/-- The normalization tag assigned by `convertToRGBAndNormalize` for a given
flag and mean/std pair. -/
def convertTag (normalize : Bool) (mean std : Fin 3 → ℚ) : NormalizationType :=
  if normalize then
    if mean 0 = 0.5 ∧ std 0 = 0.5 then .animegan
    else if mean 0 = 0.485 ∧ std 0 = 0.229 then .imagenet
    else .custom
  else .noNorm

/-- One RGB byte of `convertOutputToImage` (useStyleTransfer.ts): given the
model config's `mean`/`std` and one raw output sample `v`, produce the byte
written to the image.  The source tests `mean[0] === 0.5 && std[0] === 0.5`
(AnimeGAN) and `mean[0] === 0.485 && std[0] === 0.229` (ImageNet); the
ImageNet and custom branches use the same `round(v * 255)` formula, and all
branches clamp with `Math.max(0, Math.min(255, ...))`. -/
def denormSample (mean std : Fin 3 → ℚ) (v : ℚ) : ℤ :=
  if mean 0 = 0.5 ∧ std 0 = 0.5 then
    max 0 (min 255 (jsRound (((v + 1) / 2) * 255)))
  else if mean 0 = 0.485 ∧ std 0 = 0.229 then
    max 0 (min 255 (jsRound (v * 255)))
  else
    max 0 (min 255 (jsRound (v * 255)))

/-- The ImageNet / channel-statistics mean, as declared in the registry. -/
def imagenetMean : Fin 3 → ℚ := ![0.485, 0.456, 0.406]

/-- The ImageNet / channel-statistics std, as declared in the registry. -/
def imagenetStd : Fin 3 → ℚ := ![0.229, 0.224, 0.225]

/-- The symmetric (AnimeGAN) mean/std: 0.5 on every channel. -/
def animeganMeanStd : Fin 3 → ℚ := ![0.5, 0.5, 0.5]

example : convertSample true animeganMeanStd animeganMeanStd 0 255 = 1 := by
  norm_num [convertSample, animeganMeanStd]
example : convertSample true animeganMeanStd animeganMeanStd 0 0 = -1 := by
  norm_num [convertSample, animeganMeanStd]
example : denormSample animeganMeanStd animeganMeanStd 1 = 255 := by
  norm_num [denormSample, animeganMeanStd, jsRound]

/-! ## Claim C2: normalization round trip -/

/-- C2 counterexample: the claim "for every supported normalization scheme,
denormalize(normalize(x)) ≈ x" fails on the channel-statistics (ImageNet)
scheme.  Normalizing the byte 128 gives `(128/255 - 0.485)/0.229`; the
decoder's statistics branch computes `clamp(round(v * 255))`, which yields
19, not approximately 128 (off by 109, far outside floating-point
tolerance). -/
theorem imagenet_roundtrip_fails :
    denormSample imagenetMean imagenetStd
      (convertSample true imagenetMean imagenetStd 0 128) = 19 ∧
    ¬ |(19 : ℤ) - 128| ≤ 1 := by
  constructor
  · norm_num [denormSample, convertSample, imagenetMean, imagenetStd, jsRound]
  · decide

/-- C2 (amended): the round trip `denormalize(normalize(x)) = x` holds
exactly for every byte `x` in `0..255` on every channel for (a) the
symmetric AnimeGAN scheme (mean = std = 0.5), decoded by the decoder's
symmetric branch, and (b) the identity scheme (normalize disabled), decoded
by the `round(v * 255)` branch the decoder uses for non-symmetric model
configs.  The channel-statistics scheme does not round-trip (see the
counterexample). -/
theorem roundtrip_symmetric_and_identity (x : ℕ) (hx : x ≤ 255) (c : Fin 3) :
    denormSample animeganMeanStd animeganMeanStd
      (convertSample true animeganMeanStd animeganMeanStd c x) = x ∧
    denormSample imagenetMean imagenetStd
      (convertSample false imagenetMean imagenetStd c x) = x := by
  constructor
  · have h1 : convertSample true animeganMeanStd animeganMeanStd c x
        = ((x : ℚ) / 255) * 2 - 1 := by
      norm_num [convertSample, animeganMeanStd]
    have h3 : denormSample animeganMeanStd animeganMeanStd (((x : ℚ) / 255) * 2 - 1)
        = max 0 (min 255 (jsRound ((((x : ℚ) / 255) * 2 - 1 + 1) / 2 * 255))) := by
      norm_num [denormSample, animeganMeanStd]
    have h2 : (((x : ℚ) / 255) * 2 - 1 + 1) / 2 * 255 = (x : ℚ) := by
      field_simp
      ring
    rw [h1, h3, h2, jsRound_natCast]
    omega
  · have h1 : convertSample false imagenetMean imagenetStd c x = (x : ℚ) / 255 := by
      norm_num [convertSample]
    have h3 : denormSample imagenetMean imagenetStd ((x : ℚ) / 255)
        = max 0 (min 255 (jsRound ((x : ℚ) / 255 * 255))) := by
      norm_num [denormSample, imagenetMean, imagenetStd]
    have h2 : (x : ℚ) / 255 * 255 = (x : ℚ) := by field_simp
    rw [h1, h3, h2, jsRound_natCast]
    omega

/-- Witness for `roundtrip_symmetric_and_identity` at `x = 7`, channel 0. -/
theorem roundtrip_symmetric_and_identity_witness :
    denormSample animeganMeanStd animeganMeanStd
      (convertSample true animeganMeanStd animeganMeanStd 0 7) = 7 ∧
    denormSample imagenetMean imagenetStd
      (convertSample false imagenetMean imagenetStd 0 7) = 7 :=
  roundtrip_symmetric_and_identity 7 (by norm_num) 0

/-! ## Claim C7: generic custom normalization -/

/-- A mean vector that is not 0.5 on every channel yet has `mean[0] = 0.5`:
the source's branch test looks only at channel 0. -/
def probeMean : Fin 3 → ℚ := ![0.5, 0.3, 0.3]

/-- A std vector with `std[0] = 0.5` but other channels differing. -/
def probeStd : Fin 3 → ℚ := ![0.5, 1, 1]

/-- C7 counterexample: `probeMean`/`probeStd` is an explicit mean/std pair
other than the symmetric scheme (its channels are not all 0.5) and other
than the channel-statistics scheme, yet normalization of byte 255 on
channel 1 yields `(255/255)*2 - 1 = 1` (the AnimeGAN branch, selected by
channel 0 alone) instead of the claimed channel-statistics formula
`(255/255 - 0.3)/1 = 0.7`. -/
theorem normalize_branch_on_first_channel_only :
    (¬ ∀ c : Fin 3, probeMean c = 0.5 ∧ probeStd c = 0.5) ∧
    probeMean ≠ imagenetMean ∧
    convertSample true probeMean probeStd 1 255 = 1 ∧
    ((255 : ℚ) / 255 - probeMean 1) / probeStd 1 = 0.7 ∧
    (1 : ℚ) ≠ 0.7 := by
  refine ⟨fun h => ?_, fun h => ?_, ?_, ?_, by norm_num⟩
  · have := (h 1).1
    norm_num [probeMean] at this
  · have := congrFun h 0
    norm_num [probeMean, imagenetMean] at this
  · norm_num [convertSample, probeMean, probeStd]
  · norm_num [probeMean, probeStd]

/-- C7 (amended): every explicit mean/std pair whose *first channel* is not
`(0.5, 0.5)` is normalized with the channel-statistics formula
`(x/255 - mean[c]) / std[c]` independently per channel (the ImageNet branch
and the custom branch of the source compute the identical expression).  The
branch is selected by channel 0 alone, so a pair with
`mean[0] = std[0] = 0.5` but other channels differing is instead treated as
the symmetric scheme. -/
theorem custom_pair_uses_generic_formula (mean std : Fin 3 → ℚ) (c : Fin 3)
    (x : ℚ) (h : ¬ (mean 0 = 0.5 ∧ std 0 = 0.5)) :
    convertSample true mean std c x = (x / 255 - mean c) / std c := by
  unfold convertSample
  simp only [if_true, if_neg h]
  split <;> rfl

/-- Witness for `custom_pair_uses_generic_formula` with the registry's
ImageNet pair at channel 2, byte value 10. -/
theorem custom_pair_uses_generic_formula_witness :
    convertSample true imagenetMean imagenetStd 2 10
      = ((10 : ℚ) / 255 - imagenetMean 2) / imagenetStd 2 :=
  custom_pair_uses_generic_formula imagenetMean imagenetStd 2 10
    (by norm_num [imagenetMean, imagenetStd])

/-! ## Data model: model registry and preprocessing options -/

/-- ONNX tensor layout requested from the preprocessor. -/
inductive TensorFormat where
  | nhwc
  | nchw
  deriving DecidableEq, Repr

/-- Interpolation quality option (a quality/cost trade-off only). -/
inductive Interpolation where
  | nearest
  | bilinear
  | bicubic
  deriving DecidableEq, Repr

/-- The source's 4-tuple `inputShape: [number, number, number, number]`. -/
structure InputShape where
  d0 : ℕ
  d1 : ℕ
  d2 : ℕ
  d3 : ℕ
  deriving DecidableEq, Repr

/-- View an `InputShape` as the `number[]` the validator receives. -/
def InputShape.toList (s : InputShape) : List ℕ := [s.d0, s.d1, s.d2, s.d3]

/-- `OnnxModelConfig` from src/utils/onnxModels.ts. -/
structure OnnxModelConfig where
  name : String
  filename : String
  description : String
  inputShape : InputShape
  mean : Fin 3 → ℚ
  std : Fin 3 → ℚ
  supportedFormats : List String
  maxInputSize : ℕ

/-- The `anime` entry of `ONNX_MODELS`. -/
def animeModel : OnnxModelConfig where
  name := "Anime (Ghibli Style)"
  filename := "AnimeGANv3_Hayao_36.onnx"
  description := "Transforms images into Studio Ghibli anime style using Hayao model"
  inputShape := ⟨1, 512, 512, 3⟩
  mean := ![0.5, 0.5, 0.5]
  std := ![0.5, 0.5, 0.5]
  supportedFormats := ["jpg", "jpeg", "png", "webp"]
  maxInputSize := 512

/-- The `picasso` entry of `ONNX_MODELS` (note its NCHW input shape). -/
def picassoModel : OnnxModelConfig where
  name := "Picasso"
  filename := "picasso.onnx"
  description := "Applies Picasso's cubist painting style"
  inputShape := ⟨1, 3, 224, 224⟩
  mean := ![0.485, 0.456, 0.406]
  std := ![0.229, 0.224, 0.225]
  supportedFormats := ["jpg", "jpeg", "png", "webp"]
  maxInputSize := 512

/-- The `van-gogh` entry of `ONNX_MODELS`. -/
def vanGoghModel : OnnxModelConfig where
  name := "Van Gogh"
  filename := "vangogh.onnx"
  description := "Transforms images into Van Gogh's post-impressionist style"
  inputShape := ⟨1, 512, 512, 3⟩
  mean := ![0.485, 0.456, 0.406]
  std := ![0.229, 0.224, 0.225]
  supportedFormats := ["jpg", "jpeg", "png", "webp"]
  maxInputSize := 512

/-- The `cyberpunk` entry of `ONNX_MODELS`. -/
def cyberpunkModel : OnnxModelConfig where
  name := "Cyberpunk"
  filename := "cyberpunk.onnx"
  description := "Applies futuristic cyberpunk aesthetic"
  inputShape := ⟨1, 512, 512, 3⟩
  mean := ![0.485, 0.456, 0.406]
  std := ![0.229, 0.224, 0.225]
  supportedFormats := ["jpg", "jpeg", "png", "webp"]
  maxInputSize := 512

/-- `ImagePreprocessingOptions`; every field optional as in the source.
`keepAspect` stands for the source's aspect-preservation flag
(`maintainAspect` + `Ratio`). -/
structure ImagePreprocessingOptions where
  targetWidth : Option ℕ := none
  targetHeight : Option ℕ := none
  normalize : Option Bool := none
  mean : Option (Fin 3 → ℚ) := none
  std : Option (Fin 3 → ℚ) := none
  keepAspect : Option Bool := none
  padding : Option Bool := none
  paddingColor : Option (ℚ × ℚ × ℚ) := none
  interpolation : Option Interpolation := none
  outputFormat : Option TensorFormat := none

/-- JS `a || d` for an optional number: `undefined` and `0` are falsy. -/
def jsOr (o : Option ℕ) (d : ℕ) : ℕ :=
  match o with
  | some n => if n = 0 then d else n
  | none => d

/-- `ImagePreprocessor.DEFAULT_SIZE`. -/
def DEFAULT_SIZE : ℕ := 256

/-! ## Claim C1: the preprocessor's tensor shape -/

/-- `ImagePreprocessor.calculateDimensions`: the intermediate (pre-padding)
dimensions.  When the aspect-preservation flag is set, the image is scaled
to fit inside the target box; `ar` is the source's width/height quotient and
`tar` the target's.  (If a height is 0 the JS quotient is `Infinity`/`NaN`;
the embedding's `ℚ` division returns 0 there — no claim exercises that case.) -/
def calculateDimensions (originalWidth originalHeight targetWidth targetHeight : ℕ)
    (keepAspect : Bool) : ℕ × ℕ :=
  if !keepAspect then (targetWidth, targetHeight)
  else
    let ar : ℚ := (originalWidth : ℚ) / (originalHeight : ℚ)
    let tar : ℚ := (targetWidth : ℚ) / (targetHeight : ℚ)
    if ar > tar then
      -- Image is wider than target, fit to width
      (targetWidth, (jsRound ((targetWidth : ℚ) / ar)).toNat)
    else
      -- Image is taller than target, fit to height
      ((jsRound ((targetHeight : ℚ) * ar)).toNat, targetHeight)

/-- The width/height/shape fields of a `PreprocessedImage`. -/
structure PreprocessedMeta where
  width : ℕ
  height : ℕ
  channels : ℕ
  tensorShape : List ℕ
  deriving DecidableEq, Repr

/-- Dimension/shape bookkeeping of `ImagePreprocessor.preprocessImage`
(src/utils/onnxModels.ts, lines 249-335) for a source image of
`imageWidth × imageHeight`.  The source computes `tensorShape` from the
intermediate `width`/`height` returned by `calculateDimensions`, *before*
padding is applied and before the forced final resize; the returned
`width`/`height` fields are the target dimensions.  Pixel resampling is
external canvas rendering and not modelled; this captures every dimension
the code computes. -/
def preprocessImageMeta (imageWidth imageHeight : ℕ)
    (options : ImagePreprocessingOptions) : PreprocessedMeta :=
  let wh := calculateDimensions imageWidth imageHeight
      (jsOr options.targetWidth DEFAULT_SIZE) (jsOr options.targetHeight DEFAULT_SIZE)
      (options.keepAspect.getD true)
  let width := wh.1
  let height := wh.2
  -- resizedCanvas is width × height; when padding is requested, applyPadding
  -- composites it centered onto a canvas of exactly the target size
  let tensorShape := if options.outputFormat = some TensorFormat.nchw
      then [1, 3, height, width]
      else [1, height, width, 3]
  let finalWidth := jsOr options.targetWidth DEFAULT_SIZE
  let finalHeight := jsOr options.targetHeight DEFAULT_SIZE
  -- when the working canvas still differs from the target the source
  -- force-resizes it and re-extracts the data, but tensorShape above is
  -- not recomputed
  { width := finalWidth, height := finalHeight, channels := 3, tensorShape := tensorShape }

/-- C1 (code bug): for a 300×450 source with target 512×512,
aspect-preserving with padding, the preprocessor records
`tensorShape = [1, 512, 341, 3]` — the intermediate pre-padding width 341 —
while returning `width = height = 512` (and a 512·512·3 data buffer after
the forced resize).  The claimed `[1, 512, 512, 3]` is what the returned
`width`/`height` (and the source's own invariant-enforcement step) imply,
but the recorded shape field disagrees. -/
theorem preprocess_tensorShape_uses_intermediate_dims :
    (preprocessImageMeta 300 450
      { targetWidth := some 512, targetHeight := some 512,
        keepAspect := some true, padding := some true,
        outputFormat := some TensorFormat.nhwc }).tensorShape = [1, 512, 341, 3] ∧
    (preprocessImageMeta 300 450
      { targetWidth := some 512, targetHeight := some 512,
        keepAspect := some true, padding := some true,
        outputFormat := some TensorFormat.nhwc }).width = 512 ∧
    (preprocessImageMeta 300 450
      { targetWidth := some 512, targetHeight := some 512,
        keepAspect := some true, padding := some true,
        outputFormat := some TensorFormat.nhwc }).height = 512 ∧
    [1, 512, 341, 3] ≠ [1, 512, 512, 3] := by
  have hdim : calculateDimensions 300 450 512 512 true = (341, 512) := by
    unfold calculateDimensions
    norm_num [jsRound]
    decide
  have hj : jsOr (some 512) DEFAULT_SIZE = 512 := rfl
  refine ⟨?_, ?_, ?_, by decide⟩ <;>
    simp [preprocessImageMeta, hj, hdim]

/-! ## Preprocessed image, validator, and input tensor (claims C9, C8) -/

/-- `PreprocessedImage` from imagePreprocessing.ts: flat float buffer plus
bookkeeping.  `dataRangeMin`/`dataRangeMax` are the source's
`dataRange.min`/`dataRange.max`. -/
structure PreprocessedImage where
  data : List ℚ
  width : ℕ
  height : ℕ
  channels : ℕ
  tensorShape : List ℕ
  normalizationType : NormalizationType
  mean : Fin 3 → ℚ
  std : Fin 3 → ℚ
  dataRangeMin : ℚ
  dataRangeMax : ℚ

/-- Result record of the validators (`isValid`, optional `error`,
optional `warnings`). -/
structure ValidationResult where
  isValid : Bool
  error : Option String := none
  warnings : List String := []
  deriving DecidableEq, Repr

/-- `ImagePreprocessor.validatePreprocessedImage` (src/utils/onnxModels.ts,
lines 567-635).  NCHW is detected by `inputShape.length === 4 &&
inputShape[1] === 3`; the length test is always true for the registry's
4-tuple type, so only `d1 = 3` remains.  Dimension and channel mismatches
are hard failures; range anomalies only produce warnings; finally the
recorded `tensorShape` must be 4-dimensional with batch 1 (its spatial
entries are never compared to anything). -/
def validatePreprocessedImage (img : PreprocessedImage)
    (modelConfig : OnnxModelConfig) : ValidationResult :=
  let s := modelConfig.inputShape
  let isNCHW := s.d1 = 3
  -- NCHW: [batch, channels, height, width]; NHWC: [batch, height, width, channels]
  let channels := if isNCHW then s.d1 else s.d3
  let height := if isNCHW then s.d2 else s.d1
  let width := if isNCHW then s.d3 else s.d2
  if img.width ≠ width ∨ img.height ≠ height then
    { isValid := false, error := some "Image dimensions mismatch" }
  else if img.channels ≠ channels then
    { isValid := false, error := some "Channel mismatch" }
  else
    let warnings :=
      if img.normalizationType = .animegan then
        if img.dataRangeMin < -1.1 ∨ img.dataRangeMax > 1.1 then
          ["Data range slightly outside expected -1 to 1 range"]
        else []
      else if img.normalizationType = .imagenet then
        if img.dataRangeMin < -3 ∨ img.dataRangeMax > 3 then
          ["Data range outside expected ImageNet normalization range"]
        else []
      else []
    if img.tensorShape.length ≠ 4 then
      { isValid := false,
        error := some "Invalid tensor shape. Expected 4D tensor" }
    else if img.tensorShape.get? 0 ≠ some 1 then
      { isValid := false, error := some "Invalid batch size. Expected batch size of 1" }
    else
      { isValid := true, warnings := warnings }

/-- An `ort.Tensor`: flat data plus declared dims.  (The embedding treats
the library constructor as a plain record; the repository code never checks
the data length against the dims beyond a console warning.) -/
structure OrtTensor where
  data : List ℚ
  dims : List ℕ
  deriving DecidableEq, Repr

/-- `prepareInputTensor` (useStyleTransfer.ts, lines 287-335): validate,
then build the tensor from the *model's* declared input shape
`[batch, targetHeight, targetWidth, channels]` with the preprocessed data
used as-is.  A mismatch between `data.length` and
`batch*targetHeight*targetWidth*channels` is only `console.warn`-ed. -/
def prepareInputTensor (img : PreprocessedImage)
    (modelConfig : OnnxModelConfig) : Except String OrtTensor :=
  let validation := validatePreprocessedImage img modelConfig
  if !validation.isValid then
    .error ("Tensor validation failed: " ++ validation.error.getD "undefined")
  else
    .ok { data := img.data, dims := modelConfig.inputShape.toList }

/-! ## Claim C9: data-length mismatch is only a warning -/

/-- C9: whenever the preprocessed image passes `validatePreprocessedImage`,
`prepareInputTensor` succeeds and returns a tensor whose dims equal the
model's declared `inputShape` and whose data is the preprocessed buffer
unchanged — regardless of whether `data.length` matches the product of the
declared dims (a mismatch is only logged, never raised). -/
theorem prepareInputTensor_ignores_length_mismatch (img : PreprocessedImage)
    (modelConfig : OnnxModelConfig)
    (h : (validatePreprocessedImage img modelConfig).isValid = true) :
    prepareInputTensor img modelConfig
      = .ok { data := img.data, dims := modelConfig.inputShape.toList } := by
  unfold prepareInputTensor
  simp [h]

/-- A preprocessed image that passes validation against the anime model yet
has an empty data buffer (length 0 ≠ 1·512·512·3) and even carries the
buggy pre-padding `tensorShape` the preprocessor records. -/
def mismatchedImg : PreprocessedImage where
  data := []
  width := 512
  height := 512
  channels := 3
  tensorShape := [1, 512, 341, 3]
  normalizationType := .noNorm
  mean := ![0.5, 0.5, 0.5]
  std := ![0.5, 0.5, 0.5]
  dataRangeMin := 0
  dataRangeMax := 0

/-- Witness for `prepareInputTensor_ignores_length_mismatch`: a concrete
image with a data buffer of the wrong length still yields an `ok` tensor
with the model's dims and the untouched buffer. -/
theorem prepareInputTensor_ignores_length_mismatch_witness :
    prepareInputTensor mismatchedImg animeModel
      = .ok { data := mismatchedImg.data, dims := animeModel.inputShape.toList } :=
  prepareInputTensor_ignores_length_mismatch mismatchedImg animeModel (by decide)

/-! ## Claim C8: decoder output bytes -/

/-- A raw model output tensor. -/
structure OutputTensor where
  data : List ℚ
  dims : List ℕ
  deriving DecidableEq, Repr

/-- One byte read by `convertOutputToImage` at flat index `i`: in-bounds
samples go through `denormSample`; reading past the buffer gives JS
`undefined`, the arithmetic produces `NaN`, and storing `NaN` into a
`Uint8ClampedArray` writes 0. -/
def decodeByte (modelConfig : OnnxModelConfig) (data : List ℚ) (i : ℕ) : ℤ :=
  match data.get? i with
  | some v => denormSample modelConfig.mean modelConfig.std v
  | none => 0

/-- `convertOutputToImage` (useStyleTransfer.ts, lines 338-425): height,
width and channel count are destructured from the tensor's own dims
(`[, height, width, channels]`); each of the `height*width` pixels gets its
three decoded RGB bytes and a constant alpha of 255.  The result models the
RGBA pixels written to the canvas `ImageData`. -/
def convertOutputToImage (outputTensor : OutputTensor)
    (modelConfig : OnnxModelConfig) : List (ℤ × ℤ × ℤ × ℤ) :=
  let height := outputTensor.dims.getD 1 0
  let width := outputTensor.dims.getD 2 0
  let channels := outputTensor.dims.getD 3 0
  (List.range (height * width)).map fun i =>
    let dataIndex := i * channels
    (decodeByte modelConfig outputTensor.data dataIndex,
     decodeByte modelConfig outputTensor.data (dataIndex + 1),
     decodeByte modelConfig outputTensor.data (dataIndex + 2),
     255)

theorem decodeByte_bounds (modelConfig : OnnxModelConfig) (data : List ℚ)
    (i : ℕ) : 0 ≤ decodeByte modelConfig data i ∧ decodeByte modelConfig data i ≤ 255 := by
  rcases h : data.get? i with - | v
  · simp only [decodeByte, h]
    exact ⟨le_refl 0, by norm_num⟩
  · simp only [decodeByte, h]
    unfold denormSample
    split
    · exact ⟨le_max_left _ _, max_le (by norm_num) (min_le_left _ _)⟩
    · split <;> exact ⟨le_max_left _ _, max_le (by norm_num) (min_le_left _ _)⟩

/-- C8: every RGBA pixel the Output Decoder writes has its R, G and B bytes
in `[0, 255]` (clamped, never wrapped or out of range) and its alpha byte
equal to 255, for every raw output tensor and every model config. -/
theorem decoder_bytes_in_range_alpha_opaque (outputTensor : OutputTensor)
    (modelConfig : OnnxModelConfig) (p : ℤ × ℤ × ℤ × ℤ)
    (hp : p ∈ convertOutputToImage outputTensor modelConfig) :
    (0 ≤ p.1 ∧ p.1 ≤ 255) ∧ (0 ≤ p.2.1 ∧ p.2.1 ≤ 255) ∧
    (0 ≤ p.2.2.1 ∧ p.2.2.1 ≤ 255) ∧ p.2.2.2 = 255 := by
  unfold convertOutputToImage at hp
  simp only [List.mem_map] at hp
  obtain ⟨i, -, rfl⟩ := hp
  exact ⟨decodeByte_bounds _ _ _, decodeByte_bounds _ _ _, decodeByte_bounds _ _ _, rfl⟩

/-- A tiny 1×1 output tensor with an empty buffer (decoded entirely through
the out-of-bounds path). -/
def outWit : OutputTensor := { data := [], dims := [1, 1, 1, 3] }

/-- Witness for `decoder_bytes_in_range_alpha_opaque` on a concrete tensor
and the Picasso config. -/
theorem decoder_bytes_in_range_alpha_opaque_witness :
    (0 ≤ ((0 : ℤ), (0 : ℤ), (0 : ℤ), (255 : ℤ)).1 ∧ ((0 : ℤ), (0 : ℤ), (0 : ℤ), (255 : ℤ)).1 ≤ 255) ∧
    (0 ≤ ((0 : ℤ), (0 : ℤ), (0 : ℤ), (255 : ℤ)).2.1 ∧ ((0 : ℤ), (0 : ℤ), (0 : ℤ), (255 : ℤ)).2.1 ≤ 255) ∧
    (0 ≤ ((0 : ℤ), (0 : ℤ), (0 : ℤ), (255 : ℤ)).2.2.1 ∧ ((0 : ℤ), (0 : ℤ), (0 : ℤ), (255 : ℤ)).2.2.1 ≤ 255) ∧
    ((0 : ℤ), (0 : ℤ), (0 : ℤ), (255 : ℤ)).2.2.2 = 255 :=
  decoder_bytes_in_range_alpha_opaque outWit picassoModel (0, 0, 0, 255) (by decide)

/-! ## Model-session cache (claims C5, C6) -/

/-- State of the module-level `modelCache` (`Map<string,
ort.InferenceSession>`) plus instrumentation: `nextSession` allocates fresh
session identities (a new `InferenceSession.create` always yields a new
instance) and `loadCount` counts completed loads.  `Map.set` is modelled by
consing, with `List.lookup` returning the most recent binding. -/
structure ModelCacheState where
  cache : List (String × ℕ)
  nextSession : ℕ := 0
  loadCount : ℕ := 0
  deriving DecidableEq, Repr

/-- The synchronous `modelCache.has`/`modelCache.get` check at the top of
`loadModel`. -/
def cacheLookup (s : ModelCacheState) (filename : String) : Option ℕ :=
  s.cache.lookup filename

/-- Completion of `await ort.InferenceSession.create(modelPath, ...)`
followed by `modelCache.set(filename, session)`: a fresh session is
created, counted and stored. -/
def completeLoad (s : ModelCacheState) (filename : String) : ℕ × ModelCacheState :=
  (s.nextSession,
   { cache := (filename, s.nextSession) :: s.cache,
     nextSession := s.nextSession + 1,
     loadCount := s.loadCount + 1 })

/-- One complete, uninterrupted run of `loadModel` (useStyleTransfer.ts,
lines 241-284): check the cache, return the cached session on a hit,
otherwise perform the load and cache the new session. -/
def loadModelRun (s : ModelCacheState) (filename : String) : ℕ × ModelCacheState :=
  match cacheLookup s filename with
  | some session => (session, s)
  | none => completeLoad s filename

/-- Two near-simultaneous `loadModel` calls for the same filename under the
JS event loop: each call's cache check is synchronous, but the session is
stored only *after* the `await ort.InferenceSession.create` suspension
point.  A second call arriving while the first load is in flight therefore
performs its check against the same cache state, before either `set` has
run; each call that missed then completes its own load. -/
def interleavedLoads (s : ModelCacheState) (filename : String) :
    (ℕ × ℕ) × ModelCacheState :=
  match cacheLookup s filename with
  | some session => ((session, session), s)
  | none =>
    let r1 := completeLoad s filename
    let r2 := completeLoad r1.2 filename
    ((r1.1, r2.1), r2.2)

theorem lookup_none_countP (l : List (String × ℕ)) (f : String)
    (h : l.lookup f = none) : l.countP (fun p => f == p.1) = 0 := by
  induction l with
  | nil => rfl
  | cons a t ih =>
    rw [List.lookup] at h
    rcases hk : (f == a.1) with - | -
    · rw [hk] at h
      rw [List.countP_cons]
      have ht := ih h
      simp [ht, hk]
    · rw [hk] at h
      exact absurd h (by simp)

/-- C6: calling `loadModel` a second time for the same filename after a
completed first call returns the identical cached session, performs no
second load (the whole state, including the load counter, is unchanged),
and if the cache held at most one binding for that filename before, it
still does after the first call. -/
theorem loadModel_second_call_cached (s : ModelCacheState) (filename : String)
    (h1 : s.cache.countP (fun p => filename == p.1) ≤ 1) :
    (loadModelRun (loadModelRun s filename).2 filename).1
      = (loadModelRun s filename).1 ∧
    (loadModelRun (loadModelRun s filename).2 filename).2
      = (loadModelRun s filename).2 ∧
    ((loadModelRun s filename).2).cache.countP (fun p => filename == p.1) ≤ 1 := by
  rcases h : cacheLookup s filename with - | session
  · have hmiss : loadModelRun s filename
        = (s.nextSession,
           { cache := (filename, s.nextSession) :: s.cache,
             nextSession := s.nextSession + 1,
             loadCount := s.loadCount + 1 }) := by
      simp [loadModelRun, h, completeLoad]
    have hcount := lookup_none_countP s.cache filename h
    have hhit : cacheLookup
        ({ cache := (filename, s.nextSession) :: s.cache,
           nextSession := s.nextSession + 1,
           loadCount := s.loadCount + 1 } : ModelCacheState) filename
        = some s.nextSession := by
      simp [cacheLookup, List.lookup]
    refine ⟨?_, ?_, ?_⟩
    · rw [hmiss]
      simp [loadModelRun, hhit]
    · rw [hmiss]
      simp [loadModelRun, hhit]
    · rw [hmiss]
      simp [List.countP_cons, hcount]
  · have hhit : loadModelRun s filename = (session, s) := by
      simp [loadModelRun, h]
    rw [hhit]
    exact ⟨by simp [loadModelRun, h], by simp [loadModelRun, h], h1⟩

/-- Witness for `loadModel_second_call_cached`: from an empty cache, the
second load of `vangogh.onnx` returns the session created by the first and
leaves the state (in particular the load counter) untouched. -/
theorem loadModel_second_call_cached_witness :
    (loadModelRun (loadModelRun { cache := [] } "vangogh.onnx").2 "vangogh.onnx").1
      = (loadModelRun ({ cache := [] } : ModelCacheState) "vangogh.onnx").1 ∧
    (loadModelRun (loadModelRun { cache := [] } "vangogh.onnx").2 "vangogh.onnx").2
      = (loadModelRun ({ cache := [] } : ModelCacheState) "vangogh.onnx").2 ∧
    ((loadModelRun ({ cache := [] } : ModelCacheState) "vangogh.onnx").2).cache.countP
      (fun p => "vangogh.onnx" == p.1) ≤ 1 :=
  loadModel_second_call_cached { cache := [] } "vangogh.onnx" (by decide)

/-- C5 (code bug): two near-simultaneous requests for the uncached
`vangogh.onnx` both miss the cache check (the cache is populated only after
the `await`ed load resolves, and no in-flight promise is recorded), so the
load procedure executes twice — the load counter reaches 2, the two callers
receive two distinct sessions, and the cache ends up with two bindings for
the same file.  The claim requires exactly one load. -/
theorem concurrent_uncached_loads_double_load :
    (interleavedLoads { cache := [] } "vangogh.onnx").2.loadCount = 2 ∧
    (interleavedLoads { cache := [] } "vangogh.onnx").1.1
      ≠ (interleavedLoads { cache := [] } "vangogh.onnx").1.2 ∧
    (interleavedLoads { cache := [] } "vangogh.onnx").2.cache.countP
      (fun p => "vangogh.onnx" == p.1) = 2 := by
  decide

/-! ## Inference orchestrator and fallback simulator (claims C3, C4) -/

/-- Does `l` start with `sub`?  (JS `startsWith` on character lists.) -/
def leadMatch {α : Type} [BEq α] : List α → List α → Bool
  | [], _ => true
  | _ :: _, [] => false
  | c :: cs, d :: ds => c == d && leadMatch cs ds

/-- Does `l` contain `sub` as a contiguous run? -/
def hasSubChars {α : Type} [BEq α] (sub : List α) : List α → Bool
  | [] => sub.isEmpty
  | d :: t => leadMatch sub (d :: t) || hasSubChars sub t

/-- JS `s.includes(sub)`. -/
def jsIncludes (s sub : String) : Bool := hasSubChars sub.data s.data

/-- External behaviour of the ONNX runtime for one request: the awaited
`InferenceSession.create` rejects, the awaited `session.run` rejects, or
`session.run` resolves with the given list of named output tensors (in key
order).  The repository treats both awaited calls as opaque; quantifying
over this environment covers every possible runtime behaviour. -/
inductive InferenceEnv where
  | loadFail (msg : String)
  | runFail (msg : String)
  | runOk (outputs : List OutputTensor)

/-- `runOnnxInference` (useStyleTransfer.ts, lines 147-238): load the model
(cache handling is modelled separately by `loadModelRun`), prepare and
validate the input tensor, compare its dims against the model's declared
input shape entry by entry, run the session, and convert the first output
to an image.  Any failure is rethrown with a `Model inference failed:`
prefix. -/
def runOnnxInference (env : InferenceEnv) (img : PreprocessedImage)
    (modelConfig : OnnxModelConfig) :
    Except String (List (ℤ × ℤ × ℤ × ℤ) × OrtTensor × OutputTensor) :=
  match env with
  | .loadFail msg =>
    .error ("Model inference failed: Failed to load model: " ++ msg)
  | .runFail msg =>
    match prepareInputTensor img modelConfig with
    | .error e => .error ("Model inference failed: " ++ e)
    | .ok inputTensor =>
      if inputTensor.dims ≠ modelConfig.inputShape.toList then
        .error "Model inference failed: Tensor dimension mismatch"
      else
        .error ("Model inference failed: " ++ msg)
  | .runOk outputs =>
    match prepareInputTensor img modelConfig with
    | .error e => .error ("Model inference failed: " ++ e)
    | .ok inputTensor =>
      if inputTensor.dims ≠ modelConfig.inputShape.toList then
        .error "Model inference failed: Tensor dimension mismatch"
      else
        match outputs with
        | [] =>
          .error "Model inference failed: Output conversion failed: No output tensor found"
        | outputTensor :: _ =>
          .ok (convertOutputToImage outputTensor modelConfig, inputTensor, outputTensor)

/-- The refusal message thrown by the simulator for Anime styles. -/
def animeRefusalMsg : String :=
  "Anime style requires direct use of Anime ONNX models in the public/models folder. ONNX inference failed."

/-- One iteration of the per-pixel loop of `simulateStyleTransfer`
(useStyleTransfer.ts, lines 449-511) at flat buffer index `i` (a multiple
of 3): read and scale the three samples, then apply the style filter chosen
by substring tests on the model's display name.  The Anime branch throws;
Van Gogh uses `Math.sin`/`Math.cos`, passed in as `sinF`/`cosF` since JS
float trigonometry has no exact rational form.  Out-of-bounds reads (when
the buffer length is not a multiple of 3) give `undefined`; the embedding
reads 0 there — such samples become NaN in JS and are stored as 0 either
way, and no claim inspects them.  (For `width = 0` the JS coordinates
degenerate to NaN; they only feed `sinF`/`cosF`.) -/
def simulatePixelRGB (modelConfig : OnnxModelConfig) (sinF cosF : ℚ → ℚ)
    (img : PreprocessedImage) (i : ℕ) : Except String (ℚ × ℚ × ℚ) :=
  let x : ℕ := (i / 3) % img.width
  let y : ℕ := (i / 3) / img.width
  let r : ℚ := (jsRound (img.data.getD i 0 * 255) : ℤ)
  let g : ℚ := (jsRound (img.data.getD (i + 1) 0 * 255) : ℤ)
  let b : ℚ := (jsRound (img.data.getD (i + 2) 0 * 255) : ℤ)
  if jsIncludes modelConfig.name "Anime" then
    -- Anime style does not support simulation fallback
    .error animeRefusalMsg
  else if jsIncludes modelConfig.name "Picasso" then
    -- Picasso style: enhance contrast
    .ok (if r > 128 then min 255 (r * 1.4) else max 0 (r * 0.6),
         if g > 128 then min 255 (g * 1.4) else max 0 (g * 0.6),
         if b > 128 then min 255 (b * 1.4) else max 0 (b * 0.6))
  else if jsIncludes modelConfig.name "Van Gogh" then
    -- Van Gogh style: position-based wave effect, warm colors, contrast
    let waveX := sinF ((x : ℚ) * 0.1) * 0.2
    let waveY := cosF ((y : ℚ) * 0.08) * 0.3
    let intensity := (waveX + waveY) * 0.5 + 1.0
    let r1 := min 255 (r * (1.5 + intensity * 0.3))
    let g1 := min 255 (g * (1.4 + intensity * 0.2))
    let b1 := max 0 (b * (0.6 + intensity * 0.1))
    let r2 := if r1 > 128 then min 255 (r1 + 25) else r1
    let g2 := if g1 > 128 then min 255 (g1 + 20) else g1
    let b2 := max 0 (b1 - 40)
    let brightness := (r2 + g2 + b2) / 3
    if brightness > 150 then
      .ok (min 255 (r2 + 15), min 255 (g2 + 10), b2)
    else
      .ok (max 0 (r2 - 20), max 0 (g2 - 15), max 0 (b2 - 30))
  else if jsIncludes modelConfig.name "Cyberpunk" then
    -- Cyberpunk style: neon effects
    .ok (min 255 (r * 1.5), max 0 (g * 0.7), min 255 (b * 1.8))
  else
    .ok (r, g, b)

/-- Error-propagating map: run `f` on each element in order, stopping at
the first thrown error (the semantics of a `throw` inside a JS loop). -/
def exceptMap {α β : Type} (f : α → Except String β) : List α → Except String (List β)
  | [] => .ok []
  | a :: t =>
    match f a with
    | .error e => .error e
    | .ok b =>
      match exceptMap f t with
      | .error e => .error e
      | .ok bs => .ok (b :: bs)

/-- `simulateStyleTransfer` (useStyleTransfer.ts, lines 428-524): the
per-pixel loop runs for `i = 0, 3, 6, ... < data.length`; each iteration
stores its clamped RGB and an alpha of 255 into the `ImageData` buffer.
The first Anime iteration throws, so with a nonempty buffer the whole call
fails.  The random decorative overlays applied afterwards
(`applyVanGoghBrushStrokes` / `applyAnimeEffects`) only repaint the canvas
and cannot fail; the pixel buffer before the overlay stands in for the
returned data URL. -/
def simulateStyleTransfer (sinF cosF : ℚ → ℚ) (img : PreprocessedImage)
    (modelConfig : OnnxModelConfig) : Except String (List (ℤ × ℤ × ℤ × ℤ)) :=
  exceptMap
    (fun idx =>
      match simulatePixelRGB modelConfig sinF cosF img (3 * idx) with
      | .error e => .error e
      | .ok rgb =>
        .ok (u8ClampedStore (max 0 (min 255 rgb.1)),
             u8ClampedStore (max 0 (min 255 rgb.2.1)),
             u8ClampedStore (max 0 (min 255 rgb.2.2)),
             (255 : ℤ)))
    (List.range ((img.data.length + 2) / 3))

/-- `onnxStatus` of a `StyleTransferResult`. -/
inductive OnnxStatus where
  | connected
  | failed
  | notAttempted
  deriving DecidableEq, Repr

/-- `processingMethod` of a `StyleTransferResult` (`noMethod` is the
source's `'none'`). -/
inductive ProcessingMethod where
  | onnx
  | simulation
  | noMethod
  deriving DecidableEq, Repr

/-- `StyleTransferResult` (useStyleTransfer.ts, lines 6-27); the
`processingTime` field (wall-clock) is outside the embedding. -/
structure StyleTransferResult where
  originalImage : String
  styledImage : Option (List (ℤ × ℤ × ℤ × ℤ))
  error : Option String
  onnxStatus : OnnxStatus
  processingMethod : ProcessingMethod
  statusMessage : String
  inputTensor : Option OrtTensor
  outputTensor : Option OutputTensor
  deriving DecidableEq, Repr

/-- `transferStyle` (useStyleTransfer.ts, lines 57-132): attempt ONNX
inference; on any rejection fall back to the simulator on the *original
preprocessed image*; if the simulator itself throws, the outer catch stores
an error result with no image.  The stored result is modelled as the
function's value. -/
def transferStyle (sinF cosF : ℚ → ℚ) (env : InferenceEnv)
    (img : PreprocessedImage) (modelConfig : OnnxModelConfig)
    (originalImageUrl : String) : StyleTransferResult :=
  match runOnnxInference env img modelConfig with
  | .ok r =>
    { originalImage := originalImageUrl
      styledImage := some r.1
      error := none
      onnxStatus := .connected
      processingMethod := .onnx
      statusMessage := "ONNX model inference completed successfully."
      inputTensor := some r.2.1
      outputTensor := some r.2.2 }
  | .error _ =>
    match simulateStyleTransfer sinF cosF img modelConfig with
    | .ok styled =>
      { originalImage := originalImageUrl
        styledImage := some styled
        error := none
        onnxStatus := .failed
        processingMethod := .simulation
        statusMessage := "ONNX model connection failed, showing simulation results."
        inputTensor := none
        outputTensor := none }
    | .error e =>
      { originalImage := ""
        styledImage := none
        error := some e
        onnxStatus := .failed
        processingMethod := .noMethod
        statusMessage := "Style transfer failed: " ++ e
        inputTensor := none
        outputTensor := none }

/-! ## Claims C3 and C4: fallback behaviour -/

theorem prepareInputTensor_error_of_invalid (img : PreprocessedImage)
    (modelConfig : OnnxModelConfig)
    (h : (validatePreprocessedImage img modelConfig).isValid = false) :
    prepareInputTensor img modelConfig
      = .error ("Tensor validation failed: "
          ++ (validatePreprocessedImage img modelConfig).error.getD "undefined") := by
  unfold prepareInputTensor
  simp [h]

theorem runOnnxInference_error_of_invalid (env : InferenceEnv)
    (img : PreprocessedImage) (modelConfig : OnnxModelConfig)
    (h : (validatePreprocessedImage img modelConfig).isValid = false) :
    ∃ e, runOnnxInference env img modelConfig = .error e := by
  have hp := prepareInputTensor_error_of_invalid img modelConfig h
  cases env with
  | loadFail msg => exact ⟨_, rfl⟩
  | runFail msg =>
    exact ⟨"Model inference failed: " ++ ("Tensor validation failed: "
      ++ (validatePreprocessedImage img modelConfig).error.getD "undefined"),
      by simp [runOnnxInference, hp]⟩
  | runOk outputs =>
    exact ⟨"Model inference failed: " ++ ("Tensor validation failed: "
      ++ (validatePreprocessedImage img modelConfig).error.getD "undefined"),
      by simp [runOnnxInference, hp]⟩

theorem simulatePixelRGB_ok_of_not_anime (modelConfig : OnnxModelConfig)
    (sinF cosF : ℚ → ℚ) (img : PreprocessedImage) (i : ℕ)
    (h : jsIncludes modelConfig.name "Anime" = false) :
    ∃ v, simulatePixelRGB modelConfig sinF cosF img i = .ok v := by
  simp only [simulatePixelRGB]
  rw [if_neg (by simp [h])]
  repeat' split
  all_goals exact ⟨_, rfl⟩

theorem simulateStyleTransfer_ok_of_not_anime (sinF cosF : ℚ → ℚ)
    (img : PreprocessedImage) (modelConfig : OnnxModelConfig)
    (h : jsIncludes modelConfig.name "Anime" = false) :
    ∃ pixels, simulateStyleTransfer sinF cosF img modelConfig = .ok pixels := by
  unfold simulateStyleTransfer
  generalize List.range ((img.data.length + 2) / 3) = l
  induction l with
  | nil => exact ⟨[], rfl⟩
  | cons a t ih =>
    obtain ⟨v, hv⟩ := simulatePixelRGB_ok_of_not_anime modelConfig sinF cosF img (3 * a) h
    obtain ⟨ps, hps⟩ := ih
    refine ⟨(u8ClampedStore (max 0 (min 255 v.1)), u8ClampedStore (max 0 (min 255 v.2.1)),
      u8ClampedStore (max 0 (min 255 v.2.2)), (255 : ℤ)) :: ps, ?_⟩
    rw [exceptMap]
    simp [hv, hps]

theorem simulatePixelRGB_error_of_anime (modelConfig : OnnxModelConfig)
    (sinF cosF : ℚ → ℚ) (img : PreprocessedImage) (i : ℕ)
    (ha : jsIncludes modelConfig.name "Anime" = true) :
    simulatePixelRGB modelConfig sinF cosF img i = .error animeRefusalMsg := by
  simp only [simulatePixelRGB]
  rw [if_pos (by simp [ha])]

theorem simulateStyleTransfer_error_of_anime (sinF cosF : ℚ → ℚ)
    (img : PreprocessedImage) (modelConfig : OnnxModelConfig)
    (ha : jsIncludes modelConfig.name "Anime" = true) (hd : img.data ≠ []) :
    simulateStyleTransfer sinF cosF img modelConfig = .error animeRefusalMsg := by
  have hn : (img.data.length + 2) / 3 ≠ 0 := by
    rcases hdata : img.data with - | ⟨a, t⟩
    · exact absurd hdata hd
    · simp only [List.length_cons]
      omega
  obtain ⟨k, hk⟩ := Nat.exists_eq_succ_of_ne_zero hn
  unfold simulateStyleTransfer
  rw [hk, List.range_succ_eq_map, exceptMap,
    simulatePixelRGB_error_of_anime modelConfig sinF cosF img (3 * 0) ha]

/-- C3 (amended): whenever the prepared image fails
`validatePreprocessedImage` against the model's declared input shape
(width/height/channel/batch mismatch — these are the mismatches the
validator detects; a discrepancy confined to the recorded `tensorShape`'s
spatial entries with matching width/height fields passes validation and
proceeds to inference), `transferStyle` never rejects: for every style
whose name does not contain `Anime` it resolves with a fallback-simulation
result — a simulated image, no stored error, method `simulation` — for
*every* runtime behaviour of model load and inference; for `Anime` styles
the fallback itself refuses and the stored result carries an explicit error
and no image. -/
theorem fallback_on_validation_failure (sinF cosF : ℚ → ℚ) (env : InferenceEnv)
    (img : PreprocessedImage) (modelConfig : OnnxModelConfig) (url : String)
    (hv : (validatePreprocessedImage img modelConfig).isValid = false) :
    (jsIncludes modelConfig.name "Anime" = false →
      ∃ pixels, transferStyle sinF cosF env img modelConfig url
        = { originalImage := url
            styledImage := some pixels
            error := none
            onnxStatus := .failed
            processingMethod := .simulation
            statusMessage := "ONNX model connection failed, showing simulation results."
            inputTensor := none
            outputTensor := none }) ∧
    (jsIncludes modelConfig.name "Anime" = true → img.data ≠ [] →
      (transferStyle sinF cosF env img modelConfig url).styledImage = none ∧
      (transferStyle sinF cosF env img modelConfig url).error = some animeRefusalMsg) := by
  obtain ⟨e, he⟩ := runOnnxInference_error_of_invalid env img modelConfig hv
  constructor
  · intro hna
    obtain ⟨pixels, hp⟩ := simulateStyleTransfer_ok_of_not_anime sinF cosF img modelConfig hna
    exact ⟨pixels, by simp [transferStyle, he, hp]⟩
  · intro ha hd
    have hs := simulateStyleTransfer_error_of_anime sinF cosF img modelConfig ha hd
    constructor
    · simp [transferStyle, he, hs]
    · simp [transferStyle, he, hs]

/-- A preprocessed image whose shape disagrees with the anime model's
declared `[1, 512, 512, 3]` in several dimensions (and whose buffer is
nonempty, so the simulator's per-pixel loop runs). -/
def badAnimeImg : PreprocessedImage where
  data := [0]
  width := 256
  height := 256
  channels := 3
  tensorShape := [1, 256, 256, 3]
  normalizationType := .noNorm
  mean := ![0.5, 0.5, 0.5]
  std := ![0.5, 0.5, 0.5]
  dataRangeMin := 0
  dataRangeMax := 0

/-- C3 counterexample: for the Anime style a mismatched tensor does *not*
produce a fallback image — the fallback itself throws, the outer catch
stores an error result, and the stored `styledImage` is `null`.  The claim
("the result it stores is an image produced by the fallback" for every
mismatched tensor) is therefore false. -/
theorem anime_validation_failure_no_fallback_image :
    badAnimeImg.tensorShape ≠ animeModel.inputShape.toList ∧
    badAnimeImg.width ≠ animeModel.inputShape.d2 ∧
    (transferStyle (fun _ => 0) (fun _ => 0) (.loadFail "no such file")
      badAnimeImg animeModel "url").styledImage = none ∧
    (transferStyle (fun _ => 0) (fun _ => 0) (.loadFail "no such file")
      badAnimeImg animeModel "url").error = some animeRefusalMsg := by
  decide

/-- Witness for `fallback_on_validation_failure`: a concrete mismatched
image with the Picasso model resolves to a simulation-tagged result with no
stored error, whatever the tensor shape discrepancy. -/
theorem fallback_on_validation_failure_witness :
    (transferStyle (fun _ => 0) (fun _ => 0) (.runOk []) mismatchedImg
      picassoModel "u").processingMethod = .simulation ∧
    (transferStyle (fun _ => 0) (fun _ => 0) (.runOk []) mismatchedImg
      picassoModel "u").error = none := by
  obtain ⟨pixels, hp⟩ := (fallback_on_validation_failure (fun _ => 0) (fun _ => 0)
    (.runOk []) mismatchedImg picassoModel "u" (by decide)).1 (by decide)
  rw [hp]
  exact ⟨rfl, rfl⟩

/-- C4 (amended): for every style whose display name contains `Anime` and
every preprocessed image with a *nonempty* buffer, the Fallback Simulator
refuses (the refusal is thrown inside the per-pixel loop) and the overall
request surfaces an explicit failure — no image, an explicit error message;
with an empty buffer the loop never runs and the simulator succeeds (see
the counterexample).  For every style whose name does not contain `Anime`
the simulator always succeeds. -/
theorem simulator_anime_refusal_and_others_succeed (sinF cosF : ℚ → ℚ)
    (img : PreprocessedImage) (modelConfig : OnnxModelConfig) (url msg : String) :
    (jsIncludes modelConfig.name "Anime" = true → img.data ≠ [] →
      simulateStyleTransfer sinF cosF img modelConfig = .error animeRefusalMsg ∧
      (transferStyle sinF cosF (.loadFail msg) img modelConfig url).styledImage = none ∧
      (transferStyle sinF cosF (.loadFail msg) img modelConfig url).error
        = some animeRefusalMsg) ∧
    (jsIncludes modelConfig.name "Anime" = false →
      ∃ pixels, simulateStyleTransfer sinF cosF img modelConfig = .ok pixels) := by
  constructor
  · intro ha hd
    have hs := simulateStyleTransfer_error_of_anime sinF cosF img modelConfig ha hd
    have he : runOnnxInference (.loadFail msg) img modelConfig
        = .error ("Model inference failed: Failed to load model: " ++ msg) := rfl
    refine ⟨hs, ?_, ?_⟩
    · simp [transferStyle, he, hs]
    · simp [transferStyle, he, hs]
  · exact simulateStyleTransfer_ok_of_not_anime sinF cosF img modelConfig

/-- An anime-model-shaped preprocessed image with an empty data buffer. -/
def emptyAnimeImg : PreprocessedImage where
  data := []
  width := 512
  height := 512
  channels := 3
  tensorShape := [1, 512, 512, 3]
  normalizationType := .animegan
  mean := ![0.5, 0.5, 0.5]
  std := ![0.5, 0.5, 0.5]
  dataRangeMin := -1
  dataRangeMax := 1

/-- C4 counterexample: with an empty pixel buffer the per-pixel loop never
runs, so the simulator *succeeds* for an Anime style (returning an image
with no pixels) instead of refusing — the claim's universal refusal is
false. -/
theorem anime_fallback_succeeds_on_empty_buffer :
    jsIncludes animeModel.name "Anime" = true ∧
    simulateStyleTransfer (fun _ => 0) (fun _ => 0) emptyAnimeImg animeModel
      = .ok [] := by
  decide

/-- Witness for `simulator_anime_refusal_and_others_succeed` on a concrete
nonempty anime image. -/
theorem simulator_anime_refusal_and_others_succeed_witness :
    simulateStyleTransfer (fun _ => 0) (fun _ => 0) badAnimeImg animeModel
      = .error animeRefusalMsg ∧
    (transferStyle (fun _ => 0) (fun _ => 0) (.loadFail "missing") badAnimeImg
      animeModel "u").styledImage = none ∧
    (transferStyle (fun _ => 0) (fun _ => 0) (.loadFail "missing") badAnimeImg
      animeModel "u").error = some animeRefusalMsg :=
  (simulator_anime_refusal_and_others_succeed (fun _ => 0) (fun _ => 0) badAnimeImg
    animeModel "u" "missing").1 (by decide) (by decide)

/-! ## Claim C10: file validation -/

/-- Code points of a string literal (JS strings are code-unit sequences;
everything here is ASCII, where code units and code points agree). -/
def codes (s : String) : List ℕ := s.data.map Char.toNat

/-- JS `String.prototype.toLowerCase` on one ASCII code point (`A`-`Z` maps
to `a`-`z`; everything else, in particular `.` = 46, is fixed — the
non-ASCII special cases of Unicode lowercasing do not arise for the
ASCII-range comparisons the validator performs). -/
def jsLowerCode (n : ℕ) : ℕ := if 65 ≤ n ∧ n ≤ 90 then n + 32 else n

/-- JS `toLowerCase` on a code-point list. -/
def jsToLower (l : List ℕ) : List ℕ := l.map jsLowerCode

/-- JS `String.prototype.lastIndexOf` for a single code point: the largest
index holding `c`, or −1. -/
def jsLastIndexOf : List ℕ → ℕ → ℤ
  | [], _ => -1
  | a :: rest, c =>
    let r := jsLastIndexOf rest c
    if r ≥ 0 then r + 1
    else if a = c then 0 else -1

/-- JS `String.prototype.substring(i)`: negative indices clamp to 0. -/
def jsSubstringFrom (l : List ℕ) (i : ℤ) : List ℕ := l.drop i.toNat

/-- A JS `File`: name, MIME type, size in bytes. -/
structure JsFile where
  name : List ℕ
  type : List ℕ
  size : ℕ

/-- The validator's `allowedExtensions` list. -/
def allowedExtensions : List (List ℕ) :=
  [codes ".jpg", codes ".jpeg", codes ".png", codes ".webp", codes ".bmp"]

/-- `ImagePreprocessor.validateImageFile` (src/utils/onnxModels.ts, lines
541-562): MIME type must start with `image/`, size is capped at 10 MB, and
`name.toLowerCase().substring(name.lastIndexOf('.'))` must be one of the
allowed extensions (`lastIndexOf` returns −1 for a dot-free name, and
`substring(-1)` clamps to the whole string). -/
def validateImageFile (f : JsFile) : ValidationResult :=
  if !leadMatch (codes "image/") f.type then
    { isValid := false, error := some "File must be an image" }
  else if f.size > 10 * 1024 * 1024 then
    { isValid := false, error := some "Image file size must be less than 10MB" }
  else
    let fileExtension := jsSubstringFrom (jsToLower f.name) (jsLastIndexOf f.name 46)
    if fileExtension ∈ allowedExtensions then
      { isValid := true }
    else
      { isValid := false,
        error := some "Unsupported image format. Supported: .jpg, .jpeg, .png, .webp, .bmp" }

theorem jsLastIndexOf_eq_neg_one (l : List ℕ) (c : ℕ) (h : c ∉ l) :
    jsLastIndexOf l c = -1 := by
  induction l with
  | nil => rfl
  | cons a t ih =>
    have hc : c ∉ t := fun hm => h (List.mem_cons_of_mem a hm)
    have ha : ¬ (a = c) := fun he => h (he ▸ List.mem_cons_self a t)
    simp only [jsLastIndexOf, ih hc]
    norm_num [ha]

theorem jsLastIndexOf_append (pre rest : List ℕ) (c : ℕ) (h : c ∉ rest) :
    jsLastIndexOf (pre ++ c :: rest) c = pre.length := by
  induction pre with
  | nil =>
    simp only [List.nil_append, jsLastIndexOf, jsLastIndexOf_eq_neg_one rest c h]
    norm_num
  | cons p pre' ih =>
    simp only [List.cons_append, jsLastIndexOf]
    rw [show pre'.append (c :: rest) = pre' ++ c :: rest from rfl, ih,
      if_pos (show (pre'.length : ℤ) ≥ 0 from Int.natCast_nonneg _)]
    simp only [List.length_cons]
    push_cast
    ring

theorem jsLastIndexOf_toLower (l : List ℕ) :
    jsLastIndexOf (jsToLower l) 46 = jsLastIndexOf l 46 := by
  induction l with
  | nil => rfl
  | cons a t ih =>
    have hiff : (jsLowerCode a = 46) ↔ (a = 46) := by
      unfold jsLowerCode
      split <;> omega
    simp only [jsToLower, List.map_cons] at *
    simp only [jsLastIndexOf, ih, hiff]

theorem substring_from_lastDot (name pre erest : List ℕ) (h46 : 46 ∉ erest)
    (hpre : pre ++ 46 :: erest = jsToLower name) :
    jsSubstringFrom (jsToLower name) (jsLastIndexOf name 46) = 46 :: erest := by
  rw [← jsLastIndexOf_toLower, ← hpre, jsLastIndexOf_append pre erest 46 h46]
  unfold jsSubstringFrom
  rw [Int.toNat_natCast]
  exact List.drop_left pre (46 :: erest)

theorem ext_mem_iff_suffix (name : List ℕ) :
    jsSubstringFrom (jsToLower name) (jsLastIndexOf name 46) ∈ allowedExtensions
      ↔ ∃ e ∈ allowedExtensions, e <:+ jsToLower name := by
  constructor
  · intro h
    exact ⟨_, h, List.drop_suffix _ _⟩
  · rintro ⟨e, he, pre, hpre⟩
    have hsplit : ∃ erest, e = 46 :: erest ∧ 46 ∉ erest := by
      simp only [allowedExtensions, List.mem_cons, List.not_mem_nil, or_false] at he
      rcases he with rfl | rfl | rfl | rfl | rfl
      · exact ⟨codes "jpg", by decide, by decide⟩
      · exact ⟨codes "jpeg", by decide, by decide⟩
      · exact ⟨codes "png", by decide, by decide⟩
      · exact ⟨codes "webp", by decide, by decide⟩
      · exact ⟨codes "bmp", by decide, by decide⟩
    obtain ⟨erest, rfl, h46⟩ := hsplit
    rw [substring_from_lastDot name pre erest h46 hpre]
    exact he

/-- C10: `validateImageFile` accepts exactly the files whose MIME type
starts with `image/`, whose size is at most 10·1024·1024 bytes and whose
lowercased name ends in one of `.jpg`, `.jpeg`, `.png`, `.webp`, `.bmp`;
in every other case it reports `isValid = false` with a non-empty error
message. -/
theorem validateImageFile_iff (f : JsFile) :
    ((validateImageFile f).isValid = true ↔
      (leadMatch (codes "image/") f.type = true ∧
       f.size ≤ 10 * 1024 * 1024 ∧
       ∃ e ∈ allowedExtensions, e <:+ jsToLower f.name)) ∧
    ((validateImageFile f).isValid = false →
      ∃ msg, (validateImageFile f).error = some msg ∧ msg ≠ "") := by
  rcases hm : leadMatch (codes "image/") f.type with - | -
  · constructor
    · simp [validateImageFile, hm]
    · intro hfalse
      exact ⟨"File must be an image", by simp [validateImageFile, hm], by decide⟩
  · by_cases hs : f.size > 10 * 1024 * 1024
    · have hs' : ¬ (f.size ≤ 10 * 1024 * 1024) := by omega
      constructor
      · simp [validateImageFile, hm, hs, hs']
      · intro hfalse
        exact ⟨"Image file size must be less than 10MB",
          by simp [validateImageFile, hm, hs], by decide⟩
    · by_cases he : jsSubstringFrom (jsToLower f.name) (jsLastIndexOf f.name 46)
          ∈ allowedExtensions
      · constructor
        · simp only [validateImageFile, hm, Bool.not_true, if_neg, hs, he]
          simp [ext_mem_iff_suffix f.name] at he
          simp [he]
          omega
        · intro hfalse
          simp [validateImageFile, hm, hs, he] at hfalse
      · have he' := (not_congr (ext_mem_iff_suffix f.name)).mp he
        constructor
        · simp [validateImageFile, hm, hs, he, he']
        · intro hfalse
          exact ⟨"Unsupported image format. Supported: .jpg, .jpeg, .png, .webp, .bmp",
            by simp [validateImageFile, hm, hs, he], by decide⟩

/-- A 1000-byte `image/png` file named `Photo.PNG`. -/
def pngFile : JsFile where
  name := codes "Photo.PNG"
  type := codes "image/png"
  size := 1000

/-- Witness for `validateImageFile_iff`: `pngFile` is accepted (its
lowercased name ends in `.png`). -/
theorem validateImageFile_iff_witness :
    (validateImageFile pngFile).isValid = true :=
  (validateImageFile_iff pngFile).1.mpr
    ⟨by decide, by norm_num [pngFile], codes ".png", by decide, by decide⟩
